import Mathlib

/-!
Shallow embedding of `app.py` (gerador-prompts-didaticos), a Streamlit
form that interpolates user fields into one of two fixed f-string prompt
templates, sends the rendered string to a remote completion service, and
displays / offers the response text for download.

Effects are made explicit: the remote call is an oracle parameter
`complete : String -> Except PyExc Resultado`, and each button handler is
embedded as a pure function producing a `Trace` recording the outcome,
every rendered prompt, every outbound completion call, the text shown,
the downloads offered and the error messages displayed.
-/

set_option maxRecDepth 20000

/-- Literal template string from `app.py` lines 23-29 (`text_prompt_template`). -/
def text_prompt_template : String :=
  "\n    Você é um assistente especializado em criar conteúdo didático para o ensino superior.\n    Sua tarefa é gerar um {tipo_conteudo} sobre o tema \"{tema}\" para {nivel_academico}.\n    Considere as seguintes instruções adicionais: {detalhes_adicionais}\n\n    Gere um prompt completo e claro para um modelo de linguagem.\n    "

/-- Literal template string from `app.py` lines 37-42 (`image_prompt_template`). -/
def image_prompt_template : String :=
  "\n    Crie um prompt detalhado para um gerador de imagens que represente visualmente \"{tema_visual}\" no estilo \"{estilo_arte}\".\n    A imagem será usada como {aplicacao_didatica}.\n    Detalhes específicos para a imagem: {detalhes_imagem}.\n    O prompt deve focar na clareza didática e relevância acadêmica.\n    "

/-- The `input_variables` list registered for `text_prompt` (app.py line 31). -/
def text_input_variables : List String :=
  ["tipo_conteudo", "tema", "nivel_academico", "detalhes_adicionais"]

/-- The `input_variables` list registered for `image_prompt` (app.py line 44). -/
def image_input_variables : List String :=
  ["tema_visual", "estilo_arte", "detalhes_imagem", "aplicacao_didatica"]

/-- One scan step of Python `str.format` over the template characters: a
`\x7b` opens a replacement field whose name runs to the next `\x7d`; the
looked-up value is emitted verbatim (it is never rescanned — no recursive
expansion); every other character is copied. The fuel argument is the
length of the initial character list, which bounds the recursion since
every step consumes at least one character. -/
def formatAux (env : String → String) : Nat → List Char → List Char
  | 0, _ => []
  | _ + 1, [] => []
  | fuel + 1, c :: cs =>
    if c = '{' then
      (env (String.mk (cs.takeWhile (fun d => d ≠ '}')))).data ++
        formatAux env fuel ((cs.dropWhile (fun d => d ≠ '}')).drop 1)
    else
      c :: formatAux env fuel cs

/-- Python `template.format(**fields)` as used by `PromptTemplate` with the
default f-string template format: single left-to-right scan, literal
substitution. -/
def strFormat (template : String) (env : String → String) : String :=
  String.mk (formatAux env template.data.length template.data)

/-- Names of the replacement fields of a template, in scan order. -/
def placeholdersAux : Nat → List Char → List String
  | 0, _ => []
  | _ + 1, [] => []
  | fuel + 1, c :: cs =>
    if c = '{' then
      String.mk (cs.takeWhile (fun d => d ≠ '}')) ::
        placeholdersAux fuel ((cs.dropWhile (fun d => d ≠ '}')).drop 1)
    else
      placeholdersAux fuel cs

/-- Placeholder names occurring in a template string. -/
def placeholders (template : String) : List String :=
  placeholdersAux template.data.length template.data

/-- The four text-mode form values, keyed exactly as the dict passed to
`chain_text.invoke` (app.py lines 95-100). -/
structure TextFields where
  tipo_conteudo : String
  tema : String
  nivel_academico : String
  detalhes_adicionais : String

/-- The four image-mode form values, keyed exactly as the dict passed to
`chain_image.invoke` (app.py lines 141-146). -/
structure ImageFields where
  tema_visual : String
  estilo_arte : String
  detalhes_imagem : String
  aplicacao_didatica : String

/-- Lookup function the text FieldSet induces on placeholder names. -/
def textEnv (f : TextFields) : String → String := fun n =>
  if n = "tipo_conteudo" then f.tipo_conteudo
  else if n = "tema" then f.tema
  else if n = "nivel_academico" then f.nivel_academico
  else if n = "detalhes_adicionais" then f.detalhes_adicionais
  else ""

/-- Lookup function the image FieldSet induces on placeholder names. -/
def imageEnv (f : ImageFields) : String → String := fun n =>
  if n = "tema_visual" then f.tema_visual
  else if n = "estilo_arte" then f.estilo_arte
  else if n = "detalhes_imagem" then f.detalhes_imagem
  else if n = "aplicacao_didatica" then f.aplicacao_didatica
  else ""

/-- Rendering the text template: `text_prompt.format(**fields)`. -/
def renderText (f : TextFields) : String :=
  strFormat text_prompt_template (textEnv f)

/-- Rendering the image template: `image_prompt.format(**fields)`. -/
def renderImage (f : ImageFields) : String :=
  strFormat image_prompt_template (imageEnv f)

/-- Substring containment on strings (the spec's "contains ... as a substring"). -/
def containsSub (s pat : String) : Prop := pat.data <:+: s.data

instance (s pat : String) : Decidable (containsSub s pat) :=
  inferInstanceAs (Decidable (pat.data <:+: s.data))

/-- Python exceptions the handlers can observe: a dict KeyError (as raised
by `resultado['text']` when the key is absent), the spec's classified
upstream error, and any other exception from the SDK call. Its message is
what `f"... \x7be\x7d"` interpolates. -/
inductive PyExc
  | keyError (key : String)
  | upstreamError (msg : String)
  | exception (msg : String)
deriving DecidableEq

/-- Python `str(e)` for the exceptions above (`str(KeyError(k))` is the
repr of the key, quoted). -/
def excMessage : PyExc → String
  | .keyError k => "'" ++ k ++ "'"
  | .upstreamError m => m
  | .exception m => m

/-- Outcome of one submission, per the Form Controller contract. -/
inductive Outcome
  | Rendered (text : String)
  | ValidationFailed (field : String)
  | Failed (e : PyExc)
deriving DecidableEq

/-- Observable effects of one button-handler run: the outcome, every
prompt produced by the Renderer, every prompt sent to the Completion
Client, the texts shown with `st.code`, the `(file_name, data)` pairs
offered by `st.download_button`, and the `st.error` messages displayed. -/
structure Trace where
  outcome : Outcome
  renderedPrompts : List String
  completionCalls : List String
  shown : List String
  downloads : List (String × String)
  errorsShown : List String
deriving DecidableEq

/-- The dict returned by `chain.invoke`, as an association list. -/
def Resultado := List (String × String)

/-- Python `resultado['text']`: `none` models the KeyError case. -/
def dictGet (d : Resultado) (k : String) : Option String :=
  List.lookup k d

/-- Error message displayed by the text-mode except branch (app.py line 110). -/
def textErrorDisplay (e : PyExc) : String :=
  "Erro ao gerar o prompt de texto: " ++ excMessage e

/-- Error message displayed by the image-mode except branch (app.py line 156). -/
def imageErrorDisplay (e : PyExc) : String :=
  "Erro ao gerar o prompt de imagem: " ++ excMessage e

/-- The "Gerar Prompt de Texto" button handler (app.py lines 88-111).
Python `not tema` on a string is true exactly for the empty string, so the
guard is `tema = ""` and the handler shows the warning naming the `tema`
field without rendering or invoking the chain. Otherwise the chain is
invoked: it renders the template and performs the one remote call, modelled
by the oracle `complete`; the whole block sits in `try/except Exception`,
so any failure — including the KeyError from `resultado['text']` — becomes
a displayed error, never a crash. -/
def submitText (f : TextFields) (complete : String → Except PyExc Resultado) : Trace :=
  if f.tema = "" then
    Trace.mk (.ValidationFailed "tema") [] [] [] [] []
  else
    match complete (renderText f) with
    | .error e =>
      Trace.mk (.Failed e) [renderText f] [renderText f] [] [] [textErrorDisplay e]
    | .ok resultado =>
      match dictGet resultado "text" with
      | some t =>
        Trace.mk (.Rendered t) [renderText f] [renderText f] [t]
          [("prompt_texto_gerado.txt", t)] []
      | none =>
        Trace.mk (.Failed (.keyError "text")) [renderText f] [renderText f] [] []
          [textErrorDisplay (.keyError "text")]

/-- The "Gerar Prompt de Imagem" button handler (app.py lines 134-157),
symmetric to `submitText` with the `tema_visual` required field. -/
def submitImage (f : ImageFields) (complete : String → Except PyExc Resultado) : Trace :=
  if f.tema_visual = "" then
    Trace.mk (.ValidationFailed "tema_visual") [] [] [] [] []
  else
    match complete (renderImage f) with
    | .error e =>
      Trace.mk (.Failed e) [renderImage f] [renderImage f] [] [] [imageErrorDisplay e]
    | .ok resultado =>
      match dictGet resultado "text" with
      | some t =>
        Trace.mk (.Rendered t) [renderImage f] [renderImage f] [t]
          [("prompt_imagem_gerado.txt", t)] []
      | none =>
        Trace.mk (.Failed (.keyError "text")) [renderImage f] [renderImage f] [] []
          [imageErrorDisplay (.keyError "text")]

/-- Result of the startup section (app.py lines 8-16): `st.secrets` lookup
raising KeyError halts the script via `st.stop()` before the templates are
constructed or any form is shown; otherwise the script proceeds and the two
templates of the registry are built (lines 30-47). -/
inductive Startup
  | halted (errMsg : String)
  | running (apiKey : String) (registry : List (String × List String))
deriving DecidableEq

/-- Startup error message of app.py line 15. -/
def startupErrMsg : String :=
  "Chave de API do Gemini não encontrada. Por favor, configure 'GEMINI_API_KEY' nos segredos do Streamlit Community Cloud ou em .streamlit/secrets.toml para execução local."

/-- The startup sequence: read `GEMINI_API_KEY` from `st.secrets` (a
key-to-value mapping modelled as `String → Option String`); on KeyError
show the error and stop, else build the template registry. -/
def startup (secrets : String → Option String) : Startup :=
  match secrets "GEMINI_API_KEY" with
  | none => .halted startupErrMsg
  | some k =>
    .running k
      [(text_prompt_template, text_input_variables),
       (image_prompt_template, image_input_variables)]

/-- Options of the `tipo_conteudo` selectbox (app.py lines 71-74). -/
def tipoConteudoOptions : List String :=
  ["resumo", "artigo de blog didático", "tópicos para aula",
   "problema de exercício", "roteiro de vídeo-aula", "explicação de conceito"]

/-- Options of the `nivel_academico` selectbox (app.py lines 78-81). -/
def nivelAcademicoOptions : List String :=
  ["alunos de graduação (introdução)", "alunos de graduação (intermediário)",
   "alunos de graduação (avançado)", "alunos de pós-graduação"]

/-- Options of the `estilo_arte` selectbox (app.py lines 119-122). -/
def estiloArteOptions : List String :=
  ["diagrama conceitual", "infográfico", "ilustração científica",
   "fotorrealista", "pintura acadêmica", "esquemático", "vetorial"]

/-- Streamlit `st.selectbox`: whatever the user does, the returned value is
one of the fixed options (a choice is always selected; the default is the
first option). -/
def selectbox (options : List String) (choice : Fin options.length) : String :=
  options.get choice

/-- The text-mode page (app.py lines 68-86): `tipo_conteudo` and
`nivel_academico` come from selectboxes over their fixed option lists,
`tema` and `detalhes_adicionais` are free text widgets. -/
def textPage (tipoChoice : Fin tipoConteudoOptions.length) (temaInput : String)
    (nivelChoice : Fin nivelAcademicoOptions.length) (detalhesInput : String) :
    TextFields :=
  TextFields.mk (selectbox tipoConteudoOptions tipoChoice) temaInput
    (selectbox nivelAcademicoOptions nivelChoice) detalhesInput

/-- The image-mode page (app.py lines 114-132): `estilo_arte` comes from a
selectbox over its fixed option list, the other three fields are free text
widgets. -/
def imagePage (temaVisualInput : String)
    (estiloChoice : Fin estiloArteOptions.length)
    (detalhesInput : String) (aplicacaoInput : String) : ImageFields :=
  ImageFields.mk temaVisualInput (selectbox estiloArteOptions estiloChoice)
    detalhesInput aplicacaoInput

/-- Literal text of `text_prompt_template` before `\x7btipo_conteudo\x7d`. -/
def txtSeg0 : String := "\n    Você é um assistente especializado em criar conteúdo didático para o ensino superior.\n    Sua tarefa é gerar um "

/-- Literal text of `text_prompt_template` between `tipo_conteudo` and `tema`. -/
def txtSeg1 : String := " sobre o tema \""

/-- Literal text of `text_prompt_template` between `tema` and `nivel_academico`. -/
def txtSeg2 : String := "\" para "

/-- Literal text of `text_prompt_template` between `nivel_academico` and `detalhes_adicionais`. -/
def txtSeg3 : String := ".\n    Considere as seguintes instruções adicionais: "

/-- Literal text of `text_prompt_template` after `detalhes_adicionais`. -/
def txtSeg4 : String := "\n\n    Gere um prompt completo e claro para um modelo de linguagem.\n    "

/-- Literal text of `image_prompt_template` before `tema_visual`. -/
def imgSeg0 : String := "\n    Crie um prompt detalhado para um gerador de imagens que represente visualmente \""

/-- Literal text of `image_prompt_template` between `tema_visual` and `estilo_arte`. -/
def imgSeg1 : String := "\" no estilo \""

/-- Literal text of `image_prompt_template` between `estilo_arte` and `aplicacao_didatica`. -/
def imgSeg2 : String := "\".\n    A imagem será usada como "

/-- Literal text of `image_prompt_template` between `aplicacao_didatica` and `detalhes_imagem`. -/
def imgSeg3 : String := ".\n    Detalhes específicos para a imagem: "

/-- Literal text of `image_prompt_template` after `detalhes_imagem`. -/
def imgSeg4 : String := ".\n    O prompt deve focar na clareza didática e relevância acadêmica.\n    "

/-- Placeholder marker of a name, as it appears in a template. -/
def marker (n : String) : String := "\x7b" ++ n ++ "\x7d"

/-- Oracle for a successful remote call whose response carries the `text` key. -/
def okTextOracle : String → Except PyExc Resultado :=
  fun _ => .ok [("text", "Resuma o Ciclo de Krebs para iniciantes...")]

/-- Oracle for a remote call that raises an SDK exception. -/
def errOracle : String → Except PyExc Resultado :=
  fun _ => .error (.exception "429 Resource has been exhausted")

/-- Oracle for a successful remote call whose response lacks the `text` key. -/
def missingTextOracle : String → Except PyExc Resultado :=
  fun _ => .ok [("output", "some text")]

example : renderText ⟨"resumo", "Ciclo de Krebs", "alunos de pós-graduação", "Ser conciso."⟩ =
    "\n    Você é um assistente especializado em criar conteúdo didático para o ensino superior.\n    Sua tarefa é gerar um resumo sobre o tema \"Ciclo de Krebs\" para alunos de pós-graduação.\n    Considere as seguintes instruções adicionais: Ser conciso.\n\n    Gere um prompt completo e claro para um modelo de linguagem.\n    " := by
  rfl

example : placeholders text_prompt_template =
    ["tipo_conteudo", "tema", "nivel_academico", "detalhes_adicionais"] := by rfl

example : placeholders image_prompt_template =
    ["tema_visual", "estilo_arte", "aplicacao_didatica", "detalhes_imagem"] := by rfl

lemma renderText_decomp (f : TextFields) :
    (renderText f).data =
      txtSeg0.data ++ (f.tipo_conteudo.data ++ (txtSeg1.data ++ (f.tema.data ++
      (txtSeg2.data ++ (f.nivel_academico.data ++ (txtSeg3.data ++
      (f.detalhes_adicionais.data ++ txtSeg4.data))))))) := rfl

lemma renderImage_decomp (f : ImageFields) :
    (renderImage f).data =
      imgSeg0.data ++ (f.tema_visual.data ++ (imgSeg1.data ++ (f.estilo_arte.data ++
      (imgSeg2.data ++ (f.aplicacao_didatica.data ++ (imgSeg3.data ++
      (f.detalhes_imagem.data ++ imgSeg4.data))))))) := rfl

lemma sub_mid {α : Type} (a b c : List α) : b <:+: a ++ (b ++ c) :=
  ⟨a, c, by simp⟩

lemma sub_head {α : Type} (b c : List α) : b <:+: b ++ c :=
  ⟨[], c, rfl⟩

lemma sub_skip {α : Type} (s : List α) {l t : List α} (h : l <:+: t) :
    l <:+: s ++ t := by
  obtain ⟨p, q, rfl⟩ := h
  exact ⟨s ++ p, q, by simp⟩

lemma not_sub_of_mem_not_mem {α : Type} {c : α} {m l : List α}
    (hc : c ∈ m) (hl : c ∉ l) : ¬ m <:+: l := by
  rintro ⟨p, q, rfl⟩
  exact hl (List.mem_append.2 (Or.inl (List.mem_append.2 (Or.inr hc))))

lemma brace_mem_marker (n : String) : '{' ∈ (marker n).data := by
  show '{' ∈ ('{' :: (n.data ++ ['}']))
  exact List.mem_cons_self _ _

lemma submitText_of_ne (f : TextFields) (c : String → Except PyExc Resultado)
    (h : f.tema ≠ "") :
    (submitText f c).renderedPrompts = [renderText f] ∧
    (submitText f c).completionCalls = [renderText f] := by
  unfold submitText
  rw [if_neg h]
  cases hc : c (renderText f) with
  | error e => exact ⟨rfl, rfl⟩
  | ok r =>
    dsimp only
    cases hr : dictGet r "text" with
    | none => exact ⟨rfl, rfl⟩
    | some t => exact ⟨rfl, rfl⟩

lemma submitImage_of_ne (f : ImageFields) (c : String → Except PyExc Resultado)
    (h : f.tema_visual ≠ "") :
    (submitImage f c).renderedPrompts = [renderImage f] ∧
    (submitImage f c).completionCalls = [renderImage f] := by
  unfold submitImage
  rw [if_neg h]
  cases hc : c (renderImage f) with
  | error e => exact ⟨rfl, rfl⟩
  | ok r =>
    dsimp only
    cases hr : dictGet r "text" with
    | none => exact ⟨rfl, rfl⟩
    | some t => exact ⟨rfl, rfl⟩

lemma submitText_outcome_of_ne (f : TextFields) (c : String → Except PyExc Resultado)
    (h : f.tema ≠ "") (fld : String) :
    (submitText f c).outcome ≠ .ValidationFailed fld := by
  unfold submitText
  rw [if_neg h]
  cases hc : c (renderText f) with
  | error e => exact fun hx => Outcome.noConfusion hx
  | ok r =>
    dsimp only
    cases hr : dictGet r "text" with
    | none => exact fun hx => Outcome.noConfusion hx
    | some t => exact fun hx => Outcome.noConfusion hx

lemma submitImage_outcome_of_ne (f : ImageFields) (c : String → Except PyExc Resultado)
    (h : f.tema_visual ≠ "") (fld : String) :
    (submitImage f c).outcome ≠ .ValidationFailed fld := by
  unfold submitImage
  rw [if_neg h]
  cases hc : c (renderImage f) with
  | error e => exact fun hx => Outcome.noConfusion hx
  | ok r =>
    dsimp only
    cases hr : dictGet r "text" with
    | none => exact fun hx => Outcome.noConfusion hx
    | some t => exact fun hx => Outcome.noConfusion hx

lemma renderText_no_brace (f : TextFields)
    (h1 : '{' ∉ f.tipo_conteudo.data) (h2 : '{' ∉ f.tema.data)
    (h3 : '{' ∉ f.nivel_academico.data) (h4 : '{' ∉ f.detalhes_adicionais.data) :
    '{' ∉ (renderText f).data := by
  rw [renderText_decomp]
  intro hmem
  simp only [List.mem_append] at hmem
  rcases hmem with h | h | h | h | h | h | h | h | h
  · exact absurd h (by decide)
  · exact h1 h
  · exact absurd h (by decide)
  · exact h2 h
  · exact absurd h (by decide)
  · exact h3 h
  · exact absurd h (by decide)
  · exact h4 h
  · exact absurd h (by decide)

lemma renderImage_no_brace (f : ImageFields)
    (h1 : '{' ∉ f.tema_visual.data) (h2 : '{' ∉ f.estilo_arte.data)
    (h3 : '{' ∉ f.detalhes_imagem.data) (h4 : '{' ∉ f.aplicacao_didatica.data) :
    '{' ∉ (renderImage f).data := by
  rw [renderImage_decomp]
  intro hmem
  simp only [List.mem_append] at hmem
  rcases hmem with h | h | h | h | h | h | h | h | h
  · exact absurd h (by decide)
  · exact h1 h
  · exact absurd h (by decide)
  · exact h2 h
  · exact absurd h (by decide)
  · exact h4 h
  · exact absurd h (by decide)
  · exact h3 h
  · exact absurd h (by decide)

/-- C1: a Text-mode submission with required field `tema` empty, and an
Image-mode submission with `tema_visual` empty, return ValidationFailed
naming that field; the Renderer produces nothing and the Completion Client
is never invoked (zero network calls). -/
theorem submit_empty_required_field_validation_no_calls :
    (∀ (f : TextFields) (c : String → Except PyExc Resultado), f.tema = "" →
      submitText f c = Trace.mk (.ValidationFailed "tema") [] [] [] [] []) ∧
    (∀ (f : ImageFields) (c : String → Except PyExc Resultado), f.tema_visual = "" →
      submitImage f c = Trace.mk (.ValidationFailed "tema_visual") [] [] [] [] []) := by
  constructor
  · intro f c h
    unfold submitText
    rw [if_pos h]
  · intro f c h
    unfold submitImage
    rw [if_pos h]

/-- Witness for C1 at a concrete empty-`tema` submission. -/
theorem submit_empty_required_field_validation_no_calls_witness :
    submitText
        (TextFields.mk "resumo" "" "alunos de graduação (introdução)" "Ser conciso e didático.")
        okTextOracle =
      Trace.mk (.ValidationFailed "tema") [] [] [] [] [] :=
  submit_empty_required_field_validation_no_calls.1 _ okTextOracle rfl

/-- C3: render is pure and deterministic — two calls with identical
(template, FieldSet) give byte-identical strings, and the prompts the
Renderer produces during a submission do not depend on the external
completion oracle (no hidden state, no side effects). -/
theorem render_pure_deterministic :
    (∀ f g : TextFields, f = g → renderText f = renderText g) ∧
    (∀ f g : ImageFields, f = g → renderImage f = renderImage g) ∧
    (∀ (f : TextFields) (c c' : String → Except PyExc Resultado),
      (submitText f c).renderedPrompts = (submitText f c').renderedPrompts) ∧
    (∀ (f : ImageFields) (c c' : String → Except PyExc Resultado),
      (submitImage f c).renderedPrompts = (submitImage f c').renderedPrompts) := by
  refine ⟨fun f g h => h ▸ rfl, fun f g h => h ▸ rfl, ?_, ?_⟩
  · intro f c c'
    by_cases h : f.tema = ""
    · unfold submitText
      rw [if_pos h, if_pos h]
    · rw [(submitText_of_ne f c h).1, (submitText_of_ne f c' h).1]
  · intro f c c'
    by_cases h : f.tema_visual = ""
    · unfold submitImage
      rw [if_pos h, if_pos h]
    · rw [(submitImage_of_ne f c h).1, (submitImage_of_ne f c' h).1]

/-- Witness for C3 at a concrete repeated call. -/
theorem render_pure_deterministic_witness :
    renderText (TextFields.mk "resumo" "Ciclo de Krebs"
        "alunos de graduação (introdução)" "Ser conciso e didático.") =
      renderText (TextFields.mk "resumo" "Ciclo de Krebs"
        "alunos de graduação (introdução)" "Ser conciso e didático.") :=
  render_pure_deterministic.1 _ _ rfl

/-- C4: past validation, the handler renders then calls the Completion
Client on the rendered prompt; a failure raised by the call is caught at
the handler boundary and surfaced as Failed(e) with the originating
error's message preserved in the displayed text — the handler still
returns a Trace, it never crashes. -/
theorem submit_wraps_remote_failures :
    (∀ (f : TextFields) (c : String → Except PyExc Resultado) (e : PyExc),
      f.tema ≠ "" → c (renderText f) = .error e →
      submitText f c =
        Trace.mk (.Failed e) [renderText f] [renderText f] [] [] [textErrorDisplay e] ∧
      textErrorDisplay e = "Erro ao gerar o prompt de texto: " ++ excMessage e) ∧
    (∀ (f : ImageFields) (c : String → Except PyExc Resultado) (e : PyExc),
      f.tema_visual ≠ "" → c (renderImage f) = .error e →
      submitImage f c =
        Trace.mk (.Failed e) [renderImage f] [renderImage f] [] [] [imageErrorDisplay e] ∧
      imageErrorDisplay e = "Erro ao gerar o prompt de imagem: " ++ excMessage e) := by
  constructor
  · intro f c e h he
    refine ⟨?_, rfl⟩
    unfold submitText
    rw [if_neg h, he]
  · intro f c e h he
    refine ⟨?_, rfl⟩
    unfold submitImage
    rw [if_neg h, he]

/-- Witness for C4 at a concrete failing remote call. -/
theorem submit_wraps_remote_failures_witness :
    submitText
        (TextFields.mk "resumo" "Ciclo de Krebs" "alunos de graduação (introdução)"
          "Ser conciso e didático.")
        errOracle =
      Trace.mk (.Failed (.exception "429 Resource has been exhausted"))
        [renderText (TextFields.mk "resumo" "Ciclo de Krebs"
          "alunos de graduação (introdução)" "Ser conciso e didático.")]
        [renderText (TextFields.mk "resumo" "Ciclo de Krebs"
          "alunos de graduação (introdução)" "Ser conciso e didático.")]
        [] []
        [textErrorDisplay (.exception "429 Resource has been exhausted")] ∧
      textErrorDisplay (.exception "429 Resource has been exhausted") =
        "Erro ao gerar o prompt de texto: " ++
          excMessage (.exception "429 Resource has been exhausted") :=
  submit_wraps_remote_failures.1 _ errOracle _ (by decide) rfl

/-- C6: when `GEMINI_API_KEY` is absent from the startup configuration
the script halts with the configuration error message; the halted state
carries no API key and no template registry — templates are only
constructed in the running state, so no form and no remote call can
follow. -/
theorem startup_halts_when_key_missing :
    ∀ secrets : String → Option String, secrets "GEMINI_API_KEY" = none →
      startup secrets = .halted startupErrMsg := by
  intro s h
  unfold startup
  rw [h]

/-- Witness for C6 with an empty secrets store. -/
theorem startup_halts_when_key_missing_witness :
    startup (fun _ => none) = .halted startupErrMsg :=
  startup_halts_when_key_missing (fun _ => none) rfl

/-- C9: validation tests exactly string emptiness of the one required
field: the outcome is ValidationFailed (necessarily naming the required
field) precisely when the field is the empty string; any other value —
whitespace included — renders and performs the remote call. -/
theorem validation_tests_exact_emptiness :
    (∀ (f : TextFields) (c : String → Except PyExc Resultado),
      ((submitText f c).outcome = .ValidationFailed "tema" ↔ f.tema = "") ∧
      (∀ fld : String, (submitText f c).outcome = .ValidationFailed fld → f.tema = "") ∧
      (f.tema ≠ "" →
        (submitText f c).renderedPrompts = [renderText f] ∧
        (submitText f c).completionCalls = [renderText f])) ∧
    (∀ (f : ImageFields) (c : String → Except PyExc Resultado),
      ((submitImage f c).outcome = .ValidationFailed "tema_visual" ↔ f.tema_visual = "") ∧
      (∀ fld : String, (submitImage f c).outcome = .ValidationFailed fld → f.tema_visual = "") ∧
      (f.tema_visual ≠ "" →
        (submitImage f c).renderedPrompts = [renderImage f] ∧
        (submitImage f c).completionCalls = [renderImage f])) := by
  constructor
  · intro f c
    refine ⟨⟨?_, ?_⟩, ?_, ?_⟩
    · intro hout
      by_contra h
      exact submitText_outcome_of_ne f c h "tema" hout
    · intro h
      unfold submitText
      rw [if_pos h]
    · intro fld hout
      by_contra h
      exact submitText_outcome_of_ne f c h fld hout
    · intro h
      exact submitText_of_ne f c h
  · intro f c
    refine ⟨⟨?_, ?_⟩, ?_, ?_⟩
    · intro hout
      by_contra h
      exact submitImage_outcome_of_ne f c h "tema_visual" hout
    · intro h
      unfold submitImage
      rw [if_pos h]
    · intro fld hout
      by_contra h
      exact submitImage_outcome_of_ne f c h fld hout
    · intro h
      exact submitImage_of_ne f c h

/-- Witness for C9: a whitespace-only `tema` passes validation and
proceeds to the render and the remote call. -/
theorem validation_tests_exact_emptiness_witness :
    (submitText (TextFields.mk "resumo" " " "alunos de graduação (introdução)"
        "Ser conciso e didático.") okTextOracle).renderedPrompts =
      [renderText (TextFields.mk "resumo" " " "alunos de graduação (introdução)"
        "Ser conciso e didático.")] ∧
    (submitText (TextFields.mk "resumo" " " "alunos de graduação (introdução)"
        "Ser conciso e didático.") okTextOracle).completionCalls =
      [renderText (TextFields.mk "resumo" " " "alunos de graduação (introdução)"
        "Ser conciso e didático.")] :=
  ((validation_tests_exact_emptiness.1 _ okTextOracle).2.2 (by decide))

/-- C5: the registry built at startup holds exactly the two templates;
the placeholder names of the Text template are exactly `tipo_conteudo`,
`tema`, `nivel_academico`, `detalhes_adicionais` and those of the Image
template are exactly the set `tema_visual`, `estilo_arte`,
`detalhes_imagem`, `aplicacao_didatica` (in the template they occur in
the order `tema_visual`, `estilo_arte`, `aplicacao_didatica`,
`detalhes_imagem`); there are no other placeholders, the lists agree with
the registered `input_variables`, and the registry is constant data with
no mutation operation in the model. -/
theorem registry_two_templates_exact_placeholders :
    (∀ (secrets : String → Option String) (k : String)
        (reg : List (String × List String)),
      startup secrets = .running k reg →
      reg = [(text_prompt_template, text_input_variables),
             (image_prompt_template, image_input_variables)] ∧ reg.length = 2) ∧
    placeholders text_prompt_template =
      ["tipo_conteudo", "tema", "nivel_academico", "detalhes_adicionais"] ∧
    placeholders text_prompt_template = text_input_variables ∧
    placeholders image_prompt_template =
      ["tema_visual", "estilo_arte", "aplicacao_didatica", "detalhes_imagem"] ∧
    (∀ x : String, x ∈ placeholders image_prompt_template ↔
      x ∈ image_input_variables) := by
  refine ⟨?_, rfl, rfl, rfl, ?_⟩
  · intro s k reg h
    unfold startup at h
    cases hs : s "GEMINI_API_KEY" with
    | none =>
      rw [hs] at h
      exact Startup.noConfusion h
    | some k' =>
      rw [hs] at h
      injection h with hk hreg
      refine ⟨hreg.symm, ?_⟩
      rw [← hreg]
      rfl
  · intro x
    rw [show placeholders image_prompt_template =
      ["tema_visual", "estilo_arte", "aplicacao_didatica", "detalhes_imagem"] from rfl]
    unfold image_input_variables
    simp only [List.mem_cons, List.not_mem_nil, or_false]
    tauto

/-- Witness for C5 at a concrete populated secrets store. -/
theorem registry_two_templates_exact_placeholders_witness :
    [(text_prompt_template, text_input_variables),
     (image_prompt_template, image_input_variables)] =
      [(text_prompt_template, text_input_variables),
       (image_prompt_template, image_input_variables)] ∧
    ([(text_prompt_template, text_input_variables),
      (image_prompt_template, image_input_variables)]).length = 2 :=
  registry_two_templates_exact_placeholders.1 (fun _ => some "chave") "chave" _ rfl

/-- C10: the selectbox-backed fields are always drawn from their fixed
option lists — 6 options for `tipo_conteudo`, 4 for `nivel_academico`, 7
for `estilo_arte` — for every possible form state; the fields are present
in every FieldSet by construction and never hold arbitrary user text. -/
theorem form_fixed_option_fields :
    tipoConteudoOptions.length = 6 ∧ nivelAcademicoOptions.length = 4 ∧
    estiloArteOptions.length = 7 ∧
    (∀ (i : Fin tipoConteudoOptions.length) (tema : String)
        (j : Fin nivelAcademicoOptions.length) (det : String),
      (textPage i tema j det).tipo_conteudo ∈ tipoConteudoOptions ∧
      (textPage i tema j det).nivel_academico ∈ nivelAcademicoOptions) ∧
    (∀ (tv : String) (k : Fin estiloArteOptions.length) (di ad : String),
      (imagePage tv k di ad).estilo_arte ∈ estiloArteOptions) := by
  refine ⟨rfl, rfl, rfl, ?_, ?_⟩
  · intro i tema j det
    exact ⟨List.get_mem _ i.1 i.2, List.get_mem _ j.1 j.2⟩
  · intro tv k di ad
    exact List.get_mem _ k.1 k.2

/-- C8: for a successful submission the completion text is shown and
offered for download as `prompt_texto_gerado.txt` in Text mode and
`prompt_imagem_gerado.txt` in Image mode, and the downloaded data is the
displayed completion text. -/
theorem download_file_names_match_mode :
    (∀ (f : TextFields) (c : String → Except PyExc Resultado)
        (r : Resultado) (t : String),
      f.tema ≠ "" → c (renderText f) = .ok r → dictGet r "text" = some t →
      (submitText f c).downloads = [("prompt_texto_gerado.txt", t)] ∧
      (submitText f c).shown = [t] ∧
      (submitText f c).outcome = .Rendered t) ∧
    (∀ (f : ImageFields) (c : String → Except PyExc Resultado)
        (r : Resultado) (t : String),
      f.tema_visual ≠ "" → c (renderImage f) = .ok r → dictGet r "text" = some t →
      (submitImage f c).downloads = [("prompt_imagem_gerado.txt", t)] ∧
      (submitImage f c).shown = [t] ∧
      (submitImage f c).outcome = .Rendered t) := by
  constructor
  · intro f c r t h hok ht
    unfold submitText
    rw [if_neg h, hok]
    dsimp only
    rw [ht]
    exact ⟨rfl, rfl, rfl⟩
  · intro f c r t h hok ht
    unfold submitImage
    rw [if_neg h, hok]
    dsimp only
    rw [ht]
    exact ⟨rfl, rfl, rfl⟩

/-- Witness for C8 at a concrete successful submission. -/
theorem download_file_names_match_mode_witness :
    (submitText (TextFields.mk "resumo" "Ciclo de Krebs"
        "alunos de graduação (introdução)" "Ser conciso e didático.")
        okTextOracle).downloads =
      [("prompt_texto_gerado.txt", "Resuma o Ciclo de Krebs para iniciantes...")] ∧
    (submitText (TextFields.mk "resumo" "Ciclo de Krebs"
        "alunos de graduação (introdução)" "Ser conciso e didático.")
        okTextOracle).shown =
      ["Resuma o Ciclo de Krebs para iniciantes..."] ∧
    (submitText (TextFields.mk "resumo" "Ciclo de Krebs"
        "alunos de graduação (introdução)" "Ser conciso e didático.")
        okTextOracle).outcome =
      .Rendered "Resuma o Ciclo de Krebs para iniciantes..." :=
  download_file_names_match_mode.1 _ okTextOracle
    [("text", "Resuma o Ciclo de Krebs para iniciantes...")] _ (by decide) rfl rfl

/-- C7: the code evaluated at a successful remote call whose response
lacks the `text` key — app.py line 102 raises a KeyError that reaches the
handler's blanket `except Exception` unclassified: the outcome is Failed
with the bare KeyError, which is not an UpstreamError carrying remote
status or message, and the displayed diagnostic is only the KeyError repr. -/
theorem missing_text_key_unclassified :
    (submitText (TextFields.mk "resumo" "Ciclo de Krebs"
        "alunos de graduação (introdução)" "Ser conciso e didático.")
        missingTextOracle).outcome = .Failed (.keyError "text") ∧
    (∀ m : String, PyExc.keyError "text" ≠ PyExc.upstreamError m) ∧
    (submitText (TextFields.mk "resumo" "Ciclo de Krebs"
        "alunos de graduação (introdução)" "Ser conciso e didático.")
        missingTextOracle).errorsShown =
      ["Erro ao gerar o prompt de texto: 'text'"] :=
  ⟨rfl, fun _ h => PyExc.noConfusion h, rfl⟩

/-- C2 counterexample: with keys exactly the Text template's placeholder
names but `tema` bound to the string `"{tema}"`, the rendered output does
contain a literal placeholder marker of the template — substitution is
verbatim with no escaping, so a marker inside a value survives into the
output, refuting the unconditional no-marker claim. -/
theorem render_marker_survives_counterexample :
    containsSub
      (renderText (TextFields.mk "resumo" "{tema}"
        "alunos de graduação (introdução)" "Ser conciso e didático."))
      (marker "tema") ∧
    "tema" ∈ placeholders text_prompt_template := by
  constructor
  · decide
  · decide

/-- C2 (amended): for either template and any FieldSet with exactly the
template's keys, the output contains every value verbatim as a substring
(empty values legal); and provided no value contains the brace character
that opens a marker, the output contains no literal placeholder marker of
the template. -/
theorem render_contains_values_and_no_markers :
    (∀ f : TextFields,
      (containsSub (renderText f) f.tipo_conteudo ∧
       containsSub (renderText f) f.tema ∧
       containsSub (renderText f) f.nivel_academico ∧
       containsSub (renderText f) f.detalhes_adicionais) ∧
      (('{' ∉ f.tipo_conteudo.data ∧ '{' ∉ f.tema.data ∧
        '{' ∉ f.nivel_academico.data ∧ '{' ∉ f.detalhes_adicionais.data) →
        ∀ n ∈ placeholders text_prompt_template,
          ¬ containsSub (renderText f) (marker n))) ∧
    (∀ f : ImageFields,
      (containsSub (renderImage f) f.tema_visual ∧
       containsSub (renderImage f) f.estilo_arte ∧
       containsSub (renderImage f) f.detalhes_imagem ∧
       containsSub (renderImage f) f.aplicacao_didatica) ∧
      (('{' ∉ f.tema_visual.data ∧ '{' ∉ f.estilo_arte.data ∧
        '{' ∉ f.detalhes_imagem.data ∧ '{' ∉ f.aplicacao_didatica.data) →
        ∀ n ∈ placeholders image_prompt_template,
          ¬ containsSub (renderImage f) (marker n))) := by
  constructor
  · intro f
    constructor
    · refine ⟨?_, ?_, ?_, ?_⟩
      · show f.tipo_conteudo.data <:+: (renderText f).data
        rw [renderText_decomp]
        exact sub_skip _ (sub_head _ _)
      · show f.tema.data <:+: (renderText f).data
        rw [renderText_decomp]
        exact sub_skip _ (sub_skip _ (sub_skip _ (sub_head _ _)))
      · show f.nivel_academico.data <:+: (renderText f).data
        rw [renderText_decomp]
        exact sub_skip _ (sub_skip _ (sub_skip _ (sub_skip _ (sub_skip _
          (sub_head _ _)))))
      · show f.detalhes_adicionais.data <:+: (renderText f).data
        rw [renderText_decomp]
        exact sub_skip _ (sub_skip _ (sub_skip _ (sub_skip _ (sub_skip _
          (sub_skip _ (sub_skip _ (sub_head _ _)))))))
    · intro hb n _
      exact not_sub_of_mem_not_mem (brace_mem_marker n)
        (renderText_no_brace f hb.1 hb.2.1 hb.2.2.1 hb.2.2.2)
  · intro f
    constructor
    · refine ⟨?_, ?_, ?_, ?_⟩
      · show f.tema_visual.data <:+: (renderImage f).data
        rw [renderImage_decomp]
        exact sub_skip _ (sub_head _ _)
      · show f.estilo_arte.data <:+: (renderImage f).data
        rw [renderImage_decomp]
        exact sub_skip _ (sub_skip _ (sub_skip _ (sub_head _ _)))
      · show f.detalhes_imagem.data <:+: (renderImage f).data
        rw [renderImage_decomp]
        exact sub_skip _ (sub_skip _ (sub_skip _ (sub_skip _ (sub_skip _
          (sub_skip _ (sub_skip _ (sub_head _ _)))))))
      · show f.aplicacao_didatica.data <:+: (renderImage f).data
        rw [renderImage_decomp]
        exact sub_skip _ (sub_skip _ (sub_skip _ (sub_skip _ (sub_skip _
          (sub_head _ _)))))
    · intro hb n _
      exact not_sub_of_mem_not_mem (brace_mem_marker n)
        (renderImage_no_brace f hb.1 hb.2.1 hb.2.2.1 hb.2.2.2)

/-- Witness for C2 at a concrete brace-free FieldSet. -/
theorem render_contains_values_and_no_markers_witness :
    containsSub
      (renderText (TextFields.mk "resumo" "Ciclo de Krebs"
        "alunos de graduação (introdução)" "Ser conciso e didático."))
      "Ciclo de Krebs" ∧
    ¬ containsSub
      (renderText (TextFields.mk "resumo" "Ciclo de Krebs"
        "alunos de graduação (introdução)" "Ser conciso e didático."))
      (marker "tema") :=
  ⟨(render_contains_values_and_no_markers.1
      (TextFields.mk "resumo" "Ciclo de Krebs"
        "alunos de graduação (introdução)" "Ser conciso e didático.")).1.2.1,
   (render_contains_values_and_no_markers.1
      (TextFields.mk "resumo" "Ciclo de Krebs"
        "alunos de graduação (introdução)" "Ser conciso e didático.")).2
     (by decide) "tema" (by decide)⟩
